import Mathlib

/-!
Verification of the agent control loop of the deep-search repository.

The definitions below are a shallow embedding of src/app/api/chat/route.tsx:
the evidence accumulator (class SystemContext), the structured-output decode
contract (actionSchema), and the agent loop (runAgentLoop) together with the
external collaborators it calls (the action-selecting model, the search
provider and the crawl provider).  The theorems settle the specification
claims about those components.
-/

set_option autoImplicit false

namespace DeepSearch

/-- A search result returned by the search provider (type SearchResult in
route.tsx): identifier, nullable title, url, optional relevance score,
optional publish date, optional author.  The numeric score is carried for
completeness; the code under verification never reads it. -/
structure SearchResult where
  id : String
  title : Option String
  url : String
  score : Option Float := none
  publishedDate : Option String := none
  author : Option String := none

/-- A crawl result (type CrawlResult in route.tsx): a search result together
with the full extracted text. -/
structure CrawlResult extends SearchResult where
  text : String

/-- One content part of a chat message, as consumed by
SystemContext.getMessageHistory.  The code reads only the text property of
each part, treating a missing one as the empty string; the type tag is
carried because the specification speaks about text versus non-text parts,
but the code never inspects it. -/
structure UIPart where
  type : String
  text : Option String

/-- A chat message: a role (user, assistant or system) and an ordered list
of content parts. -/
structure UIMessage where
  role : String
  parts : List UIPart

/-- The evidence accumulator (class SystemContext in route.tsx): a step
counter starting at 0, the conversation history, and append-only lists of
search results and crawl results. -/
structure SystemContext where
  step : Nat := 0
  messages : List UIMessage
  searchHistory : List SearchResult := []
  crawlHistory : List CrawlResult := []

/-- The constructor new SystemContext(messages). -/
def SystemContext.make (messages : List UIMessage) : SystemContext :=
  { messages := messages }

/-- addSearchResults: push all given results onto the search history. -/
def SystemContext.addSearchResults (c : SystemContext)
    (results : List SearchResult) : SystemContext :=
  { c with searchHistory := c.searchHistory ++ results }

/-- addCrawls: push all given crawl results onto the crawl history. -/
def SystemContext.addCrawls (c : SystemContext)
    (crawls : List CrawlResult) : SystemContext :=
  { c with crawlHistory := c.crawlHistory ++ crawls }

/-- JavaScript template-literal interpolation of a value of type
string-or-null: null prints as the four-character string null. -/
def nullableToString : Option String → String
  | none => "null"
  | some s => s

/-- getSearchHistory: one line per search result, newline-joined. -/
def SystemContext.getSearchHistory (c : SystemContext) : String :=
  String.intercalate "\n"
    (c.searchHistory.map (fun r => "- " ++ nullableToString r.title ++ ": " ++ r.url))

/-- getCrawlHistory: one titled section per crawl result, joined by a
visible separator. -/
def SystemContext.getCrawlHistory (c : SystemContext) : String :=
  String.intercalate "\n\n---\n\n"
    (c.crawlHistory.map (fun r =>
      "## " ++ nullableToString r.title ++ "\n" ++ r.url ++ "\n\n" ++ r.text))

/-- getMessageHistory: one line per message, role-prefixed, parts projected
to their text property with a missing text contributing the empty string. -/
def SystemContext.getMessageHistory (c : SystemContext) : String :=
  String.intercalate "\n"
    (c.messages.map (fun m =>
      m.role ++ ": " ++ String.join (m.parts.map (fun p => p.text.getD ""))))

/-- getQueryHistory: defined in the source as a direct call to
getSearchHistory. -/
def SystemContext.getQueryHistory (c : SystemContext) : String :=
  c.getSearchHistory

/-- getUrlsCrawled: defined in the source as a direct call to
getCrawlHistory. -/
def SystemContext.getUrlsCrawled (c : SystemContext) : String :=
  c.getCrawlHistory

/-- shouldStop: the step counter has reached the fixed ceiling of 10. -/
def SystemContext.shouldStop (c : SystemContext) : Bool :=
  decide (c.step ≥ 10)

/-- incrementStep: increase the step counter by one. -/
def SystemContext.incrementStep (c : SystemContext) : SystemContext :=
  { c with step := c.step + 1 }

/-- The three action tags of the z.enum in actionSchema. -/
inductive ActionType where
  | search
  | crawl
  | answer
  deriving DecidableEq

/-- A decoded action (type Action in route.tsx): reasoning, tag, nullable
query, nullable url list. -/
structure Action where
  reasoning : String
  type : ActionType
  query : Option String
  urls : Option (List String)
  deriving DecidableEq

/-- A JSON value, as fed to the zod action schema.  Numbers are abstracted
to integers, which loses nothing here because the schema rejects every
number. -/
inductive Json where
  | null
  | bool (b : Bool)
  | num (n : Int)
  | str (s : String)
  | arr (elems : List Json)
  | obj (fields : List (String × Json))

/-- z.string(): accept exactly a JSON string; a missing key is rejected. -/
def decodeString : Option Json → Option String
  | some (Json.str s) => some s
  | _ => none

/-- z.string().nullable(): accept a JSON string or JSON null; a missing key
is still rejected, since nullable is not optional in zod. -/
def decodeNullableString : Option Json → Option (Option String)
  | some Json.null => some none
  | some (Json.str s) => some (some s)
  | _ => none

/-- The z.enum of the three action tags. -/
def decodeActionType : Option Json → Option ActionType
  | some (Json.str "search") => some ActionType.search
  | some (Json.str "crawl") => some ActionType.crawl
  | some (Json.str "answer") => some ActionType.answer
  | _ => none

/-- z.array(z.string()): every element must be a JSON string. -/
def decodeStringList : List Json → Option (List String)
  | [] => some []
  | Json.str s :: rest => Option.map (fun l => s :: l) (decodeStringList rest)
  | _ :: _ => none

/-- z.array(z.string()).nullable(). -/
def decodeNullableStringList : Option Json → Option (Option (List String))
  | some Json.null => some none
  | some (Json.arr elems) => Option.map (fun l => some l) (decodeStringList elems)
  | _ => none

/-- The decode contract of actionSchema in route.tsx: a JSON object whose
reasoning is a string, whose type is one of the three enum tags, whose query
is a string or null and whose urls is an array of strings or null.  The
describe annotations of the schema (query required when the type is search,
and so on) are prompt text only; zod does not enforce them, and neither does
this decoder. -/
def actionSchemaDecode : Json → Option Action
  | Json.obj fields =>
    match decodeString (fields.lookup "reasoning"),
          decodeActionType (fields.lookup "type"),
          decodeNullableString (fields.lookup "query"),
          decodeNullableStringList (fields.lookup "urls") with
    | some r, some t, some q, some us =>
      some { reasoning := r, type := t, query := q, urls := us }
    | _, _, _, _ => none
  | _ => none

/-- The external collaborators of one loop run, as total oracles.  The
action-selection model is indexed by the step counter at the moment of the
call, which from a fresh accumulator equals the number of previous selector
calls, because the source increments the counter exactly once per non-answer
iteration.  An error value models a call that throws, including a model
response failing the structured-output decode.  The search oracle receives
the possibly null query exactly as the source passes nextAction.query, whose
non-null assertion has no runtime effect. -/
structure Providers (ε : Type) where
  nextAction : Nat → Except ε Action
  search : Option String → Nat → Except ε (List SearchResult)
  getContents : List String → Bool → Except ε (List CrawlResult)

/-- The observable calls of one loop run, in order: an action selection, a
search provider call carrying the query and the requested result count, a
crawl provider call carrying the batched url list and the text-extraction
flag, or an answer-generation call carrying the exhausted flag. -/
inductive AgentEvent where
  | selectCall
  | searchCall (query : Option String) (numResults : Nat)
  | crawlCall (urls : List String) (text : Bool)
  | answerCall (exhausted : Bool)
  deriving DecidableEq

/-- How a run aborts: a propagated provider error, or the TypeError raised
when a crawl action carries a null urls list, since the source reads the
length of the list before invoking the crawl provider. -/
inductive AgentError (ε : Type) where
  | provider (e : ε)
  | nullUrls
  deriving DecidableEq

/-- The while loop of runAgentLoop in route.tsx, started from an arbitrary
accumulator state.  The result is the ordered trace of external calls,
paired with either the propagated error or the pair handed to
answerQuestion, namely the final accumulator and the exhausted flag.  The
fuel argument is only an upper bound on the remaining iterations making the
recursion structural: the loop itself stops through shouldStop, and the
theorem runAgentLoopFrom_fuel_irrelevant below shows that any fuel of at
least 10 - step produces the identical run, so fuel 10 from a fresh
accumulator is exact. -/
def runAgentLoopFrom {ε : Type} (P : Providers ε) : Nat → SystemContext →
    List AgentEvent × Except (AgentError ε) (SystemContext × Bool)
  | 0, c => ([AgentEvent.answerCall true], Except.ok (c, true))
  | fuel + 1, c =>
    if c.shouldStop then
      ([AgentEvent.answerCall true], Except.ok (c, true))
    else
      match P.nextAction c.step with
      | Except.error e => ([AgentEvent.selectCall], Except.error (AgentError.provider e))
      | Except.ok a =>
        match a.type with
        | ActionType.search =>
          match P.search a.query 10 with
          | Except.error e =>
            ([AgentEvent.selectCall, AgentEvent.searchCall a.query 10],
             Except.error (AgentError.provider e))
          | Except.ok rs =>
            (AgentEvent.selectCall :: AgentEvent.searchCall a.query 10 ::
               (runAgentLoopFrom P fuel ((c.addSearchResults rs).incrementStep)).1,
             (runAgentLoopFrom P fuel ((c.addSearchResults rs).incrementStep)).2)
        | ActionType.crawl =>
          match a.urls with
          | none => ([AgentEvent.selectCall], Except.error AgentError.nullUrls)
          | some us =>
            match P.getContents us true with
            | Except.error e =>
              ([AgentEvent.selectCall, AgentEvent.crawlCall us true],
               Except.error (AgentError.provider e))
            | Except.ok cs =>
              (AgentEvent.selectCall :: AgentEvent.crawlCall us true ::
                 (runAgentLoopFrom P fuel ((c.addCrawls cs).incrementStep)).1,
               (runAgentLoopFrom P fuel ((c.addCrawls cs).incrementStep)).2)
        | ActionType.answer =>
          ([AgentEvent.selectCall, AgentEvent.answerCall false], Except.ok (c, false))

/-- runAgentLoop in route.tsx: build a fresh accumulator from the messages
and run the while loop.  The counter starts at 0, so fuel 10 covers every
iteration the loop can reach. -/
def runAgentLoop {ε : Type} (P : Providers ε) (messages : List UIMessage) :
    List AgentEvent × Except (AgentError ε) (SystemContext × Bool) :=
  runAgentLoopFrom P 10 (SystemContext.make messages)

/-- Number of action-selection calls recorded in a trace. -/
def selectCount : List AgentEvent → Nat
  | [] => 0
  | AgentEvent.selectCall :: tr => selectCount tr + 1
  | _ :: tr => selectCount tr

/-- The exhausted flags of the answer-generation calls recorded in a trace,
in order. -/
def answerFlags : List AgentEvent → List Bool
  | [] => []
  | AgentEvent.answerCall b :: tr => b :: answerFlags tr
  | _ :: tr => answerFlags tr

/-- A well-formed search action, used to exercise the theorems. -/
def searchAction : Action :=
  { reasoning := "r", type := ActionType.search, query := some "q", urls := none }

/-- A search action whose query is null, accepted by the decode contract. -/
def searchNullQueryAction : Action :=
  { reasoning := "r", type := ActionType.search, query := none, urls := none }

/-- An answer action. -/
def answerAction : Action :=
  { reasoning := "r", type := ActionType.answer, query := none, urls := none }

/-- A crawl action carrying two urls. -/
def crawlAction : Action :=
  { reasoning := "r", type := ActionType.crawl, query := none,
    urls := some ["https://a.example", "https://b.example"] }

/-- Oracles that always select the given action, with providers returning
empty result lists. -/
def constProviders (a : Action) : Providers Unit :=
  { nextAction := fun _ => Except.ok a,
    search := fun _ _ => Except.ok [],
    getContents := fun _ _ => Except.ok [] }

/-- The JSON payload of a search action with a null query. -/
def searchNullQueryJson : Json :=
  Json.obj [("reasoning", Json.str "r"), ("type", Json.str "search"),
            ("query", Json.null), ("urls", Json.null)]

/-- A single-part user message with text hello. -/
def helloMessage : UIMessage :=
  { role := "user", parts := [{ type := "text", text := some "hello" }] }

/-- A user message whose only part is a reasoning part carrying text. -/
def reasoningMessage : UIMessage :=
  { role := "user", parts := [{ type := "reasoning", text := some "thinking" }] }

/-- Sample search results and crawl results for the rendering claims. -/
def sampleSearchA : SearchResult :=
  { id := "1", title := some "A", url := "https://a.example" }

def sampleSearchB : SearchResult :=
  { id := "2", title := some "B", url := "https://b.example" }

def sampleCrawlA : CrawlResult :=
  { id := "1", title := some "T1", url := "https://u1", text := "body1" }

def sampleCrawlB : CrawlResult :=
  { id := "2", title := some "T2", url := "https://u2", text := "body2" }

/-! ### Helper lemmas about the accumulator -/

@[simp]
theorem make_step (msgs : List UIMessage) : (SystemContext.make msgs).step = 0 := rfl

@[simp]
theorem addSearchResults_step (c : SystemContext) (rs : List SearchResult) :
    (c.addSearchResults rs).step = c.step := rfl

@[simp]
theorem addCrawls_step (c : SystemContext) (cs : List CrawlResult) :
    (c.addCrawls cs).step = c.step := rfl

@[simp]
theorem incrementStep_step (c : SystemContext) :
    c.incrementStep.step = c.step + 1 := rfl

@[simp]
theorem addSearchResults_searchHistory (c : SystemContext) (rs : List SearchResult) :
    (c.addSearchResults rs).searchHistory = c.searchHistory ++ rs := rfl

@[simp]
theorem addSearchResults_crawlHistory (c : SystemContext) (rs : List SearchResult) :
    (c.addSearchResults rs).crawlHistory = c.crawlHistory := rfl

@[simp]
theorem addCrawls_crawlHistory (c : SystemContext) (cs : List CrawlResult) :
    (c.addCrawls cs).crawlHistory = c.crawlHistory ++ cs := rfl

@[simp]
theorem addCrawls_searchHistory (c : SystemContext) (cs : List CrawlResult) :
    (c.addCrawls cs).searchHistory = c.searchHistory := rfl

theorem shouldStop_eq_false_iff (c : SystemContext) :
    c.shouldStop = false ↔ c.step < 10 := by
  simp [SystemContext.shouldStop]

theorem shouldStop_eq_true_iff (c : SystemContext) :
    c.shouldStop = true ↔ 10 ≤ c.step := by
  simp [SystemContext.shouldStop]

/-! ### One-iteration equations of the loop -/

theorem loop_zero {ε : Type} (P : Providers ε) (c : SystemContext) :
    runAgentLoopFrom P 0 c = ([AgentEvent.answerCall true], Except.ok (c, true)) := rfl

theorem loop_stop {ε : Type} (P : Providers ε) (f : Nat) (c : SystemContext)
    (hstop : c.shouldStop = true) :
    runAgentLoopFrom P (f + 1) c = ([AgentEvent.answerCall true], Except.ok (c, true)) := by
  simp [runAgentLoopFrom, hstop]

theorem loop_select_error {ε : Type} (P : Providers ε) (f : Nat) (c : SystemContext)
    (e : ε) (hstop : c.shouldStop = false)
    (hact : P.nextAction c.step = Except.error e) :
    runAgentLoopFrom P (f + 1) c =
      ([AgentEvent.selectCall], Except.error (AgentError.provider e)) := by
  simp [runAgentLoopFrom, hstop, hact]

theorem loop_search_ok {ε : Type} (P : Providers ε) (f : Nat) (c : SystemContext)
    (a : Action) (rs : List SearchResult) (hstop : c.shouldStop = false)
    (hact : P.nextAction c.step = Except.ok a) (hty : a.type = ActionType.search)
    (hs : P.search a.query 10 = Except.ok rs) :
    runAgentLoopFrom P (f + 1) c =
      (AgentEvent.selectCall :: AgentEvent.searchCall a.query 10 ::
         (runAgentLoopFrom P f ((c.addSearchResults rs).incrementStep)).1,
       (runAgentLoopFrom P f ((c.addSearchResults rs).incrementStep)).2) := by
  simp [runAgentLoopFrom, hstop, hact, hty, hs]

theorem loop_search_error {ε : Type} (P : Providers ε) (f : Nat) (c : SystemContext)
    (a : Action) (e : ε) (hstop : c.shouldStop = false)
    (hact : P.nextAction c.step = Except.ok a) (hty : a.type = ActionType.search)
    (hs : P.search a.query 10 = Except.error e) :
    runAgentLoopFrom P (f + 1) c =
      ([AgentEvent.selectCall, AgentEvent.searchCall a.query 10],
       Except.error (AgentError.provider e)) := by
  simp [runAgentLoopFrom, hstop, hact, hty, hs]

theorem loop_crawl_ok {ε : Type} (P : Providers ε) (f : Nat) (c : SystemContext)
    (a : Action) (us : List String) (cs : List CrawlResult)
    (hstop : c.shouldStop = false)
    (hact : P.nextAction c.step = Except.ok a) (hty : a.type = ActionType.crawl)
    (hurls : a.urls = some us) (hc : P.getContents us true = Except.ok cs) :
    runAgentLoopFrom P (f + 1) c =
      (AgentEvent.selectCall :: AgentEvent.crawlCall us true ::
         (runAgentLoopFrom P f ((c.addCrawls cs).incrementStep)).1,
       (runAgentLoopFrom P f ((c.addCrawls cs).incrementStep)).2) := by
  simp [runAgentLoopFrom, hstop, hact, hty, hurls, hc]

theorem loop_crawl_error {ε : Type} (P : Providers ε) (f : Nat) (c : SystemContext)
    (a : Action) (us : List String) (e : ε) (hstop : c.shouldStop = false)
    (hact : P.nextAction c.step = Except.ok a) (hty : a.type = ActionType.crawl)
    (hurls : a.urls = some us) (hc : P.getContents us true = Except.error e) :
    runAgentLoopFrom P (f + 1) c =
      ([AgentEvent.selectCall, AgentEvent.crawlCall us true],
       Except.error (AgentError.provider e)) := by
  simp [runAgentLoopFrom, hstop, hact, hty, hurls, hc]

theorem loop_crawl_null {ε : Type} (P : Providers ε) (f : Nat) (c : SystemContext)
    (a : Action) (hstop : c.shouldStop = false)
    (hact : P.nextAction c.step = Except.ok a) (hty : a.type = ActionType.crawl)
    (hurls : a.urls = none) :
    runAgentLoopFrom P (f + 1) c =
      ([AgentEvent.selectCall], Except.error AgentError.nullUrls) := by
  simp [runAgentLoopFrom, hstop, hact, hty, hurls]

theorem loop_answer {ε : Type} (P : Providers ε) (f : Nat) (c : SystemContext)
    (a : Action) (hstop : c.shouldStop = false)
    (hact : P.nextAction c.step = Except.ok a) (hty : a.type = ActionType.answer) :
    runAgentLoopFrom P (f + 1) c =
      ([AgentEvent.selectCall, AgentEvent.answerCall false], Except.ok (c, false)) := by
  simp [runAgentLoopFrom, hstop, hact, hty]

/-! ### Global lemmas about the loop -/

/-- The fuel bound is immaterial: any two fuels covering the remaining
iterations produce the identical run, so the loop terminates through
shouldStop alone. -/
theorem runAgentLoopFrom_fuel_irrelevant {ε : Type} (P : Providers ε) (f : Nat) :
    ∀ (g : Nat) (c : SystemContext), 10 - c.step ≤ f → 10 - c.step ≤ g →
      runAgentLoopFrom P f c = runAgentLoopFrom P g c := by
  induction f with
  | zero =>
    intro g c hf hg
    have hs : c.shouldStop = true := by rw [shouldStop_eq_true_iff]; omega
    cases g with
    | zero => rfl
    | succ g => rw [loop_stop P g c hs, loop_zero]
  | succ f ih =>
    intro g c hf hg
    cases g with
    | zero =>
      have hs : c.shouldStop = true := by rw [shouldStop_eq_true_iff]; omega
      rw [loop_stop P f c hs, loop_zero]
    | succ g =>
      cases hs : c.shouldStop with
      | true => rw [loop_stop P f c hs, loop_stop P g c hs]
      | false =>
        have hlt : c.step < 10 := (shouldStop_eq_false_iff c).1 hs
        cases hact : P.nextAction c.step with
        | error e => rw [loop_select_error P f c e hs hact, loop_select_error P g c e hs hact]
        | ok a =>
          cases hty : a.type with
          | search =>
            cases hsr : P.search a.query 10 with
            | error e =>
              rw [loop_search_error P f c a e hs hact hty hsr,
                  loop_search_error P g c a e hs hact hty hsr]
            | ok rs =>
              rw [loop_search_ok P f c a rs hs hact hty hsr,
                  loop_search_ok P g c a rs hs hact hty hsr]
              have hrec := ih g ((c.addSearchResults rs).incrementStep)
                (by simp; omega) (by simp; omega)
              rw [hrec]
          | crawl =>
            cases hurls : a.urls with
            | none => rw [loop_crawl_null P f c a hs hact hty hurls,
                          loop_crawl_null P g c a hs hact hty hurls]
            | some us =>
              cases hcr : P.getContents us true with
              | error e =>
                rw [loop_crawl_error P f c a us e hs hact hty hurls hcr,
                    loop_crawl_error P g c a us e hs hact hty hurls hcr]
              | ok cs =>
                rw [loop_crawl_ok P f c a us cs hs hact hty hurls hcr,
                    loop_crawl_ok P g c a us cs hs hact hty hurls hcr]
                have hrec := ih g ((c.addCrawls cs).incrementStep)
                  (by simp; omega) (by simp; omega)
                rw [hrec]
          | answer => rw [loop_answer P f c a hs hact hty, loop_answer P g c a hs hact hty]

/-- The number of action-selection calls of a run is bounded by the distance
from the step counter to the ceiling of 10. -/
theorem selectCount_le {ε : Type} (P : Providers ε) (f : Nat) :
    ∀ c : SystemContext, selectCount (runAgentLoopFrom P f c).1 ≤ 10 - c.step := by
  induction f with
  | zero => intro c; simp [loop_zero, selectCount]
  | succ f ih =>
    intro c
    cases hs : c.shouldStop with
    | true => simp [loop_stop P f c hs, selectCount]
    | false =>
      have hlt : c.step < 10 := (shouldStop_eq_false_iff c).1 hs
      cases hact : P.nextAction c.step with
      | error e =>
        rw [loop_select_error P f c e hs hact]
        simp [selectCount]; omega
      | ok a =>
        cases hty : a.type with
        | search =>
          cases hsr : P.search a.query 10 with
          | error e =>
            rw [loop_search_error P f c a e hs hact hty hsr]
            simp [selectCount]; omega
          | ok rs =>
            rw [loop_search_ok P f c a rs hs hact hty hsr]
            have hrec := ih ((c.addSearchResults rs).incrementStep)
            simp [selectCount] at hrec ⊢
            omega
        | crawl =>
          cases hurls : a.urls with
          | none =>
            rw [loop_crawl_null P f c a hs hact hty hurls]
            simp [selectCount]; omega
          | some us =>
            cases hcr : P.getContents us true with
            | error e =>
              rw [loop_crawl_error P f c a us e hs hact hty hurls hcr]
              simp [selectCount]; omega
            | ok cs =>
              rw [loop_crawl_ok P f c a us cs hs hact hty hurls hcr]
              have hrec := ih ((c.addCrawls cs).incrementStep)
              simp [selectCount] at hrec ⊢
              omega
        | answer =>
          rw [loop_answer P f c a hs hact hty]
          simp [selectCount]; omega

/-- A run aborted by an error performs no answer-generation call at all. -/
theorem answerFlags_of_error {ε : Type} (P : Providers ε) (f : Nat) :
    ∀ (c : SystemContext) (err : AgentError ε),
      (runAgentLoopFrom P f c).2 = Except.error err →
      answerFlags (runAgentLoopFrom P f c).1 = [] := by
  induction f with
  | zero => intro c err h; rw [loop_zero] at h; simp at h
  | succ f ih =>
    intro c err h
    cases hs : c.shouldStop with
    | true => rw [loop_stop P f c hs] at h; simp at h
    | false =>
      cases hact : P.nextAction c.step with
      | error e => simp [loop_select_error P f c e hs hact, answerFlags]
      | ok a =>
        cases hty : a.type with
        | search =>
          cases hsr : P.search a.query 10 with
          | error e => simp [loop_search_error P f c a e hs hact hty hsr, answerFlags]
          | ok rs =>
            rw [loop_search_ok P f c a rs hs hact hty hsr] at h ⊢
            simp only [answerFlags]
            exact ih _ err h
        | crawl =>
          cases hurls : a.urls with
          | none => simp [loop_crawl_null P f c a hs hact hty hurls, answerFlags]
          | some us =>
            cases hcr : P.getContents us true with
            | error e => simp [loop_crawl_error P f c a us e hs hact hty hurls hcr, answerFlags]
            | ok cs =>
              rw [loop_crawl_ok P f c a us cs hs hact hty hurls hcr] at h ⊢
              simp only [answerFlags]
              exact ih _ err h
        | answer => rw [loop_answer P f c a hs hact hty] at h; simp at h

/-- If no selector call below the ceiling returns an answer action and the
run succeeds, it succeeds through the exhausted branch and performs exactly
one answer-generation call, with the exhausted flag set. -/
theorem exhausted_run {ε : Type} (P : Providers ε) (f : Nat) :
    ∀ (c : SystemContext) (r : SystemContext × Bool),
      (∀ j, c.step ≤ j → j < 10 → ∀ a, P.nextAction j = Except.ok a →
          a.type ≠ ActionType.answer) →
      (runAgentLoopFrom P f c).2 = Except.ok r →
      r.2 = true ∧ answerFlags (runAgentLoopFrom P f c).1 = [true] := by
  induction f with
  | zero =>
    intro c r _ h
    rw [loop_zero] at h
    obtain rfl : (c, true) = r := Except.ok.inj h
    exact ⟨rfl, by simp [loop_zero, answerFlags]⟩
  | succ f ih =>
    intro c r hsel h
    cases hs : c.shouldStop with
    | true =>
      rw [loop_stop P f c hs] at h
      obtain rfl : (c, true) = r := Except.ok.inj h
      exact ⟨rfl, by simp [loop_stop P f c hs, answerFlags]⟩
    | false =>
      have hlt : c.step < 10 := (shouldStop_eq_false_iff c).1 hs
      cases hact : P.nextAction c.step with
      | error e => rw [loop_select_error P f c e hs hact] at h; simp at h
      | ok a =>
        have hne : a.type ≠ ActionType.answer := hsel c.step le_rfl hlt a hact
        cases hty : a.type with
        | answer => exact absurd hty hne
        | search =>
          cases hsr : P.search a.query 10 with
          | error e => rw [loop_search_error P f c a e hs hact hty hsr] at h; simp at h
          | ok rs =>
            rw [loop_search_ok P f c a rs hs hact hty hsr] at h ⊢
            have hsel2 : ∀ j, ((c.addSearchResults rs).incrementStep).step ≤ j → j < 10 →
                ∀ a2, P.nextAction j = Except.ok a2 → a2.type ≠ ActionType.answer := by
              intro j hj hj10 a2 ha2
              exact hsel j (by simp at hj; omega) hj10 a2 ha2
            obtain ⟨h1, h2⟩ := ih _ r hsel2 h
            exact ⟨h1, by simp only [answerFlags]; exact h2⟩
        | crawl =>
          cases hurls : a.urls with
          | none => rw [loop_crawl_null P f c a hs hact hty hurls] at h; simp at h
          | some us =>
            cases hcr : P.getContents us true with
            | error e => rw [loop_crawl_error P f c a us e hs hact hty hurls hcr] at h; simp at h
            | ok cs =>
              rw [loop_crawl_ok P f c a us cs hs hact hty hurls hcr] at h ⊢
              have hsel2 : ∀ j, ((c.addCrawls cs).incrementStep).step ≤ j → j < 10 →
                  ∀ a2, P.nextAction j = Except.ok a2 → a2.type ≠ ActionType.answer := by
                intro j hj hj10 a2 ha2
                exact hsel j (by simp at hj; omega) hj10 a2 ha2
              obtain ⟨h1, h2⟩ := ih _ r hsel2 h
              exact ⟨h1, by simp only [answerFlags]; exact h2⟩

/-! ### String helpers -/

theorem stringJoin_append_singleton (l : List String) (s : String) :
    String.join (l ++ [s]) = String.join l ++ s := by
  simp only [String.join, List.foldl_append, List.foldl_cons, List.foldl_nil]

theorem stringIntercalate_singleton (s x : String) : String.intercalate s [x] = x := rfl

theorem stringIntercalateGo_append (s : String) : ∀ (l : List String) (acc a : String),
    String.intercalate.go (acc ++ a) s l = acc ++ String.intercalate.go a s l := by
  intro l
  induction l with
  | nil => intro acc a; rfl
  | cons c cs ih =>
    intro acc a
    show String.intercalate.go (acc ++ a ++ s ++ c) s cs
        = acc ++ String.intercalate.go (a ++ s ++ c) s cs
    rw [String.append_assoc acc a s, String.append_assoc acc (a ++ s) c]
    exact ih acc ((a ++ s) ++ c)

/-- Joining at least two pieces with a separator renders the head, the
separator, then the joined tail. -/
theorem stringIntercalate_cons (s x y : String) (l : List String) :
    String.intercalate s (x :: y :: l) = x ++ s ++ String.intercalate s (y :: l) := by
  show String.intercalate.go (x ++ s ++ y) s l = x ++ s ++ String.intercalate.go y s l
  exact stringIntercalateGo_append s l (x ++ s) y

@[simp]
theorem make_messages (msgs : List UIMessage) :
    (SystemContext.make msgs).messages = msgs := rfl

/-- Appending one part to a message appends exactly that part's text
projection to the rendered line: its text when present, nothing when
absent. -/
theorem getMessageHistory_append_part (role ty : String) (t : Option String)
    (parts : List UIPart) :
    (SystemContext.make
        [{ role := role, parts := parts ++ [{ type := ty, text := t }] }]).getMessageHistory
      = (SystemContext.make [{ role := role, parts := parts }]).getMessageHistory
        ++ t.getD "" := by
  simp only [SystemContext.getMessageHistory, SystemContext.make, List.map_cons,
    List.map_nil, stringIntercalate_singleton, List.map_append]
  rw [stringJoin_append_singleton, ← String.append_assoc]

@[simp]
theorem make_searchHistory (msgs : List UIMessage) :
    (SystemContext.make msgs).searchHistory = [] := rfl

@[simp]
theorem make_crawlHistory (msgs : List UIMessage) :
    (SystemContext.make msgs).crawlHistory = [] := rfl

/-! ### The claims -/

/-- Claim C1: the step counter starts at 0 and no operation ever decreases
it (addSearchResults and addCrawls leave it unchanged and incrementStep adds
one); shouldStop is false for every count below 10 and true at 10; and a run
of the loop performs at most 10 - step action-selection calls, hence at most
10 from a fresh accumulator and never an 11th. -/
theorem claim_C1 {ε : Type} (P : Providers ε) (msgs : List UIMessage)
    (c : SystemContext) (rs : List SearchResult) (cs : List CrawlResult) (f : Nat) :
    (SystemContext.make msgs).step = 0
    ∧ c.incrementStep.step = c.step + 1
    ∧ (c.addSearchResults rs).step = c.step
    ∧ (c.addCrawls cs).step = c.step
    ∧ (c.step < 10 → c.shouldStop = false)
    ∧ (c.step = 10 → c.shouldStop = true)
    ∧ selectCount (runAgentLoopFrom P f c).1 ≤ 10 - c.step
    ∧ selectCount (runAgentLoop P msgs).1 ≤ 10 := by
  refine ⟨rfl, rfl, rfl, rfl, ?_, ?_, selectCount_le P f c, ?_⟩
  · intro h; rw [shouldStop_eq_false_iff]; exact h
  · intro h; rw [shouldStop_eq_true_iff]; omega
  · have h := selectCount_le P 10 (SystemContext.make msgs)
    simpa [runAgentLoop] using h

/-- Claim C2: if no selector call within the first 10 iterations returns an
answer action and the run completes, it completes through the exhausted
branch: the result carries the exhausted flag true and the trace records
exactly one answer-generation call, that one with the flag set, so the
non-exhausted answer is never produced in the same run. -/
theorem claim_C2 {ε : Type} (P : Providers ε) (msgs : List UIMessage)
    (r : SystemContext × Bool)
    (hsel : ∀ j, j < 10 → ∀ a, P.nextAction j = Except.ok a →
        a.type ≠ ActionType.answer)
    (hok : (runAgentLoop P msgs).2 = Except.ok r) :
    r.2 = true ∧ answerFlags (runAgentLoop P msgs).1 = [true] := by
  have h := exhausted_run P 10 (SystemContext.make msgs) r
    (fun j _ hj10 a ha => hsel j hj10 a ha) hok
  simpa [runAgentLoop] using h

theorem claim_C2_witness :
    (({ step := 10, messages := [], searchHistory := [], crawlHistory := [] }, true) :
        SystemContext × Bool).2 = true
    ∧ answerFlags (runAgentLoop (constProviders searchAction) []).1 = [true] :=
  claim_C2 (constProviders searchAction) []
    ({ step := 10, messages := [], searchHistory := [], crawlHistory := [] }, true)
    (fun _ _ a ha => by
      injection ha with h
      exact h ▸ (by decide))
    (by rfl)

/-- Claim C3: on an iteration where the selector returns an answer action,
the loop terminates at once through the non-exhausted path: the remainder of
the run is exactly one selection event followed by one answer-generation
event with the exhausted flag false, the accumulator is returned unchanged
(same step counter, same search and crawl histories), and no search or crawl
provider call occurs anywhere in the remaining trace. -/
theorem claim_C3 {ε : Type} (P : Providers ε) (f : Nat) (c : SystemContext) (a : Action)
    (hstop : c.shouldStop = false)
    (hact : P.nextAction c.step = Except.ok a)
    (hty : a.type = ActionType.answer) :
    runAgentLoopFrom P (f + 1) c =
      ([AgentEvent.selectCall, AgentEvent.answerCall false], Except.ok (c, false))
    ∧ answerFlags (runAgentLoopFrom P (f + 1) c).1 = [false]
    ∧ (∀ q n, AgentEvent.searchCall q n ∉ (runAgentLoopFrom P (f + 1) c).1)
    ∧ (∀ us b, AgentEvent.crawlCall us b ∉ (runAgentLoopFrom P (f + 1) c).1) := by
  have h := loop_answer P f c a hstop hact hty
  refine ⟨h, ?_, ?_, ?_⟩
  · rw [h]; rfl
  · intro q n; rw [h]; simp
  · intro us b; rw [h]; simp

theorem claim_C3_witness :
    runAgentLoopFrom (constProviders answerAction) 10 (SystemContext.make []) =
      ([AgentEvent.selectCall, AgentEvent.answerCall false],
       Except.ok (SystemContext.make [], false)) :=
  (claim_C3 (constProviders answerAction) 9 (SystemContext.make []) answerAction
    rfl rfl rfl).1

/-- Claim C4 counterexample: the decode contract does not reject a search
action with a null query.  The schema accepts the payload, and the loop then
attempts a search provider call carrying the null query, contrary to the
claim that rejection happens before any provider call. -/
theorem claim_C4_counterexample :
    actionSchemaDecode searchNullQueryJson = some searchNullQueryAction
    ∧ AgentEvent.searchCall none 10 ∈
        (runAgentLoop (constProviders searchNullQueryAction) []).1 :=
  ⟨rfl, by decide⟩

/-- Claim C4 as amended: the decode contract accepts a search action whose
query is null or empty, because the schema constrains query only to be a
string or null; the executor then attempts the search provider call with
that query passed through unvalidated. -/
theorem claim_C4_amended {ε : Type} (P : Providers ε) (f : Nat) (c : SystemContext)
    (a : Action) (r : String)
    (hstop : c.shouldStop = false)
    (hact : P.nextAction c.step = Except.ok a)
    (hty : a.type = ActionType.search) :
    actionSchemaDecode (Json.obj [("reasoning", Json.str r), ("type", Json.str "search"),
        ("query", Json.null), ("urls", Json.null)]) =
      some { reasoning := r, type := ActionType.search, query := none, urls := none }
    ∧ actionSchemaDecode (Json.obj [("reasoning", Json.str r), ("type", Json.str "search"),
        ("query", Json.str ""), ("urls", Json.null)]) =
      some { reasoning := r, type := ActionType.search, query := some "", urls := none }
    ∧ (runAgentLoopFrom P (f + 1) c).1.take 2 =
        [AgentEvent.selectCall, AgentEvent.searchCall a.query 10] := by
  refine ⟨rfl, rfl, ?_⟩
  cases hsr : P.search a.query 10 with
  | error e => rw [loop_search_error P f c a e hstop hact hty hsr]; rfl
  | ok rs => rw [loop_search_ok P f c a rs hstop hact hty hsr]; rfl

theorem claim_C4_witness :
    (runAgentLoopFrom (constProviders searchNullQueryAction) 10
        (SystemContext.make [])).1.take 2 =
      [AgentEvent.selectCall, AgentEvent.searchCall none 10] :=
  (claim_C4_amended (constProviders searchNullQueryAction) 9 (SystemContext.make [])
    searchNullQueryAction "r" rfl rfl rfl).2.2

/-- Claim C5 counterexample: a part whose type is not text but which carries
a text property, such as a reasoning part, contributes its text to the
rendered history instead of the empty string the claim requires. -/
theorem claim_C5_counterexample :
    (SystemContext.make [reasoningMessage]).getMessageHistory = "user: thinking"
    ∧ (SystemContext.make [reasoningMessage]).getMessageHistory ≠ "user: " :=
  ⟨rfl, by decide⟩

/-- Claim C5 as amended, for every conversation: the empty conversation
renders empty; a conversation with at least two messages renders as the
first message's line, a newline, then the rendering of the remaining
messages, so the projection is one line per message, newline-joined; each
line is the message's role and a colon for an empty part list, a part
without a text property contributes nothing to its line, and any part
carrying a text property contributes that text whatever its type tag.
These equations determine the rendering of every conversation by structural
recursion; in particular the single-message conversation with the text part
hello renders exactly as user: hello. -/
theorem claim_C5_amended (role ty s : String) (parts : List UIPart)
    (m m2 : UIMessage) (ms : List UIMessage) :
    (SystemContext.make [helloMessage]).getMessageHistory = "user: hello"
    ∧ (SystemContext.make []).getMessageHistory = ""
    ∧ (SystemContext.make (m :: m2 :: ms)).getMessageHistory
        = (SystemContext.make [m]).getMessageHistory ++ "\n"
          ++ (SystemContext.make (m2 :: ms)).getMessageHistory
    ∧ (SystemContext.make [{ role := role, parts := [] }]).getMessageHistory
        = role ++ ": "
    ∧ (SystemContext.make
          [{ role := role, parts := parts ++ [{ type := ty, text := none }] }]).getMessageHistory
        = (SystemContext.make [{ role := role, parts := parts }]).getMessageHistory
    ∧ (SystemContext.make
          [{ role := role, parts := parts ++ [{ type := ty, text := some s }] }]).getMessageHistory
        = (SystemContext.make [{ role := role, parts := parts }]).getMessageHistory ++ s := by
  refine ⟨rfl, rfl, ?_, ?_, ?_, ?_⟩
  · simp only [SystemContext.getMessageHistory, make_messages, List.map_cons, List.map_nil,
      stringIntercalate_singleton]
    exact stringIntercalate_cons _ _ _ _
  · exact String.append_empty (role ++ ": ")
  · rw [getMessageHistory_append_part role ty none parts]
    exact String.append_empty _
  · exact getMessageHistory_append_part role ty (some s) parts

/-- Claim C6: each append extends its own history at the tail and leaves the
other history untouched; consecutive appends concatenate, so every sequence
of appends from a fresh accumulator yields the concatenation of the appended
chunks in order; from a fresh accumulator, appending the m search results
and then the n crawl results leaves histories of lengths exactly m and n.
The rendered projections are characterized on every history by structural
recursion: an empty history renders empty, a single appended search result
renders as its dash line (dash, title, colon, url) and a single crawl result
as its titled section (heading, url, blank line, text), and with at least
two entries the head entry renders first followed by the separator (newline
for search lines, the visible dashed separator for crawl sections) and the
rendering of the rest, so the render lists exactly the appended entries in
insertion order; the two-element samples show the resulting strings in
full. -/
theorem claim_C6 (msgs : List UIMessage) (rs rs2 : List SearchResult)
    (cs cs2 : List CrawlResult) (c : SystemContext)
    (r r2 : SearchResult) (rest : List SearchResult)
    (cr cr2 : CrawlResult) (crest : List CrawlResult) :
    (c.addSearchResults rs).searchHistory = c.searchHistory ++ rs
    ∧ (c.addSearchResults rs).crawlHistory = c.crawlHistory
    ∧ (c.addCrawls cs).crawlHistory = c.crawlHistory ++ cs
    ∧ (c.addCrawls cs).searchHistory = c.searchHistory
    ∧ (c.addSearchResults rs).addSearchResults rs2 = c.addSearchResults (rs ++ rs2)
    ∧ (c.addCrawls cs).addCrawls cs2 = c.addCrawls (cs ++ cs2)
    ∧ (((SystemContext.make msgs).addSearchResults rs).addCrawls cs).searchHistory.length
        = rs.length
    ∧ (((SystemContext.make msgs).addSearchResults rs).addCrawls cs).crawlHistory.length
        = cs.length
    ∧ (SystemContext.make msgs).getSearchHistory = ""
    ∧ ((SystemContext.make msgs).addSearchResults [r]).getSearchHistory
        = "- " ++ nullableToString r.title ++ ": " ++ r.url
    ∧ ((SystemContext.make msgs).addSearchResults (r :: r2 :: rest)).getSearchHistory
        = ("- " ++ nullableToString r.title ++ ": " ++ r.url) ++ "\n"
          ++ ((SystemContext.make msgs).addSearchResults (r2 :: rest)).getSearchHistory
    ∧ (SystemContext.make msgs).getCrawlHistory = ""
    ∧ ((SystemContext.make msgs).addCrawls [cr]).getCrawlHistory
        = "## " ++ nullableToString cr.title ++ "\n" ++ cr.url ++ "\n\n" ++ cr.text
    ∧ ((SystemContext.make msgs).addCrawls (cr :: cr2 :: crest)).getCrawlHistory
        = ("## " ++ nullableToString cr.title ++ "\n" ++ cr.url ++ "\n\n" ++ cr.text)
          ++ "\n\n---\n\n"
          ++ ((SystemContext.make msgs).addCrawls (cr2 :: crest)).getCrawlHistory
    ∧ (((SystemContext.make []).addSearchResults [sampleSearchA]).addSearchResults
          [sampleSearchB]).getSearchHistory
        = "- A: https://a.example\n- B: https://b.example"
    ∧ (((SystemContext.make []).addCrawls [sampleCrawlA]).addCrawls
          [sampleCrawlB]).getCrawlHistory
        = "## T1\nhttps://u1\n\nbody1\n\n---\n\n## T2\nhttps://u2\n\nbody2" := by
  refine ⟨rfl, rfl, rfl, rfl, ?_, ?_, by simp, by simp, rfl, rfl, ?_, rfl, rfl, ?_, rfl, rfl⟩
  · simp [SystemContext.addSearchResults, List.append_assoc]
  · simp [SystemContext.addCrawls, List.append_assoc]
  · simp only [SystemContext.getSearchHistory, addSearchResults_searchHistory,
      make_searchHistory, List.nil_append, List.map_cons]
    exact stringIntercalate_cons _ _ _ _
  · simp only [SystemContext.getCrawlHistory, addCrawls_crawlHistory,
      make_crawlHistory, List.nil_append, List.map_cons]
    exact stringIntercalate_cons _ _ _ _

/-- Claim C7: when the selector returns a search action, the iteration
performs exactly one search provider call, carrying the action's query and a
requested result count of 10, and continues with every returned result
appended to the search history; when it returns a crawl action with a url
list, the iteration performs exactly one batched crawl call carrying the
whole list and the full-text flag, never one call per url, and continues
with every returned result appended to the crawl history. -/
theorem claim_C7 {ε : Type} (P : Providers ε) (f : Nat) (c : SystemContext) (a : Action)
    (rs : List SearchResult) (cs : List CrawlResult) (us : List String)
    (hstop : c.shouldStop = false)
    (hact : P.nextAction c.step = Except.ok a) :
    (a.type = ActionType.search → P.search a.query 10 = Except.ok rs →
      runAgentLoopFrom P (f + 1) c =
        (AgentEvent.selectCall :: AgentEvent.searchCall a.query 10 ::
           (runAgentLoopFrom P f ((c.addSearchResults rs).incrementStep)).1,
         (runAgentLoopFrom P f ((c.addSearchResults rs).incrementStep)).2))
    ∧ (a.type = ActionType.crawl → a.urls = some us →
       P.getContents us true = Except.ok cs →
      runAgentLoopFrom P (f + 1) c =
        (AgentEvent.selectCall :: AgentEvent.crawlCall us true ::
           (runAgentLoopFrom P f ((c.addCrawls cs).incrementStep)).1,
         (runAgentLoopFrom P f ((c.addCrawls cs).incrementStep)).2)) :=
  ⟨fun hty hs => loop_search_ok P f c a rs hstop hact hty hs,
   fun hty hurls hc => loop_crawl_ok P f c a us cs hstop hact hty hurls hc⟩

theorem claim_C7_witness :
    runAgentLoopFrom (constProviders crawlAction) 10 (SystemContext.make []) =
      (AgentEvent.selectCall ::
         AgentEvent.crawlCall ["https://a.example", "https://b.example"] true ::
         (runAgentLoopFrom (constProviders crawlAction) 9
            (((SystemContext.make []).addCrawls []).incrementStep)).1,
       (runAgentLoopFrom (constProviders crawlAction) 9
          (((SystemContext.make []).addCrawls []).incrementStep)).2) :=
  (claim_C7 (constProviders crawlAction) 9 (SystemContext.make []) crawlAction [] []
    ["https://a.example", "https://b.example"] rfl rfl).2 rfl rfl rfl

/-- Claim C8: the loop catches nothing.  A run whose result is an error
performs no answer-generation call at all, so accumulated evidence is never
used to answer on the error path; and a failing action-selection, search or
crawl call ends the run immediately with that error propagated, with no
retry and no further events. -/
theorem claim_C8 {ε : Type} (P : Providers ε) (f : Nat) (c : SystemContext)
    (e : ε) (a : Action) (us : List String) (err : AgentError ε) :
    ((runAgentLoopFrom P f c).2 = Except.error err →
       answerFlags (runAgentLoopFrom P f c).1 = [])
    ∧ (c.shouldStop = false → P.nextAction c.step = Except.error e →
       runAgentLoopFrom P (f + 1) c =
         ([AgentEvent.selectCall], Except.error (AgentError.provider e)))
    ∧ (c.shouldStop = false → P.nextAction c.step = Except.ok a →
       a.type = ActionType.search → P.search a.query 10 = Except.error e →
       runAgentLoopFrom P (f + 1) c =
         ([AgentEvent.selectCall, AgentEvent.searchCall a.query 10],
          Except.error (AgentError.provider e)))
    ∧ (c.shouldStop = false → P.nextAction c.step = Except.ok a →
       a.type = ActionType.crawl → a.urls = some us →
       P.getContents us true = Except.error e →
       runAgentLoopFrom P (f + 1) c =
         ([AgentEvent.selectCall, AgentEvent.crawlCall us true],
          Except.error (AgentError.provider e))) :=
  ⟨answerFlags_of_error P f c err,
   fun hstop hact => loop_select_error P f c e hstop hact,
   fun hstop hact hty hs => loop_search_error P f c a e hstop hact hty hs,
   fun hstop hact hty hurls hc => loop_crawl_error P f c a us e hstop hact hty hurls hc⟩

/-- Claim C9: getQueryHistory and getUrlsCrawled are definitional aliases of
getSearchHistory and getCrawlHistory on every accumulator state. -/
theorem claim_C9 (c : SystemContext) :
    c.getQueryHistory = c.getSearchHistory ∧ c.getUrlsCrawled = c.getCrawlHistory :=
  ⟨rfl, rfl⟩

/-- Claim C10: a null title is interpolated as the literal string null, as
JavaScript template literals do: the search projection renders the line
with a null title as dash, null, colon, url, and the crawl projection opens
the section with a null heading, never omitting the title or rendering it
empty. -/
theorem claim_C10 (idv u txt : String) (sc : Option Float) (pd au : Option String) :
    ((SystemContext.make []).addSearchResults
        [{ id := idv, title := none, url := u, score := sc,
           publishedDate := pd, author := au }]).getSearchHistory
      = "- null: " ++ u
    ∧ ((SystemContext.make []).addCrawls
        [{ id := idv, title := none, url := u, score := sc,
           publishedDate := pd, author := au, text := txt }]).getCrawlHistory
      = "## null\n" ++ u ++ "\n\n" ++ txt :=
  ⟨rfl, rfl⟩

end DeepSearch
